import Mathlib

/-!
Shallow embedding of the Sims 1 IFF binary decoder (src/api/iff_parser.py).

Byte buffers are `List Nat` (one entry per byte).  The Python code raises
struct.error / ValueError / IndexError when a declared read runs past the end
of a buffer; those fallible paths are embedded in the `Option` monad, with
`none` standing for the raised exception.  Python slicing (which silently
truncates) is embedded as the total function `slice`.  Python `dict`s are
embedded as insertion-ordered association lists (`dictInsert` / `dictGet?`),
matching CPython's overwrite-in-place, insertion-ordered semantics.
-/

set_option maxRecDepth 200000

namespace SimsCompat

/-- Little-endian value of a byte list (first byte is least significant). -/
def leBytes (bs : List Nat) : Nat := bs.foldr (fun b acc => b + 256 * acc) 0

/-- Big-endian value of a byte list (first byte is most significant). -/
def beBytes (bs : List Nat) : Nat := bs.foldl (fun acc b => 256 * acc + b) 0

/-- Python slice `data[pos : pos + n]`: total, silently truncated at the end. -/
def slice (data : List Nat) (pos n : Nat) : List Nat := (data.drop pos).take n

/-- Two's-complement reinterpretation of a `w`-byte unsigned value. -/
def toSigned (w v : Nat) : Int :=
  if v < 2 ^ (8 * w - 1) then (v : Int) else (v : Int) - 2 ^ (8 * w)

/-- `struct.unpack_from` bounds check: `none` models the raised struct.error. -/
def readBytes (data : List Nat) (pos n : Nat) : Option (List Nat) :=
  if pos + n ≤ data.length then some (slice data pos n) else none

/-- `struct.unpack_from("<I", data, pos)`. -/
def readU32 (data : List Nat) (pos : Nat) : Option Nat :=
  (readBytes data pos 4).map leBytes

/-- `struct.unpack_from("<i", data, pos)`. -/
def readI32 (data : List Nat) (pos : Nat) : Option Int :=
  (readBytes data pos 4).map (fun bs => toSigned 4 (leBytes bs))

/-- `struct.unpack_from("<h", data, pos)`. -/
def readI16 (data : List Nat) (pos : Nat) : Option Int :=
  (readBytes data pos 2).map (fun bs => toSigned 2 (leBytes bs))

/-- Consecutive little-endian signed 16-bit values of a byte list. -/
def i16List : List Nat → List Int
  | b0 :: b1 :: rest => toSigned 2 (b0 + 256 * b1) :: i16List rest
  | _ => []

/-- Consecutive little-endian signed 32-bit values of a byte list. -/
def i32List : List Nat → List Int
  | b0 :: b1 :: b2 :: b3 :: rest =>
      toSigned 4 (b0 + 256 * b1 + 65536 * b2 + 16777216 * b3) :: i32List rest
  | _ => []

/-- Python `l[i]` guarded by an in-bounds test (`l[i] if i < len(l) else 0`). -/
def getI (l : List Int) (i : Nat) : Int := (l.get? i).getD 0

/-- Python dict assignment `m[k] = v`: overwrite in place, else append. -/
def dictInsert {α β : Type} [DecidableEq α] : List (α × β) → α → β → List (α × β)
  | [], k, v => [(k, v)]
  | p :: ps, k, v => if p.1 = k then (k, v) :: ps else p :: dictInsert ps k v

/-- Python `m.get(k)` on an association list. -/
def dictGet? {α β : Type} [DecidableEq α] : List (α × β) → α → Option β
  | [], _ => none
  | p :: ps, k => if p.1 = k then some p.2 else dictGet? ps k

/-- One chunk of an IFF container: type tag bytes, numeric id, payload bytes. -/
structure Chunk where
  ctype : List Nat
  cid : Nat
  payload : List Nat
  deriving DecidableEq, Repr

/-- Loop of `_read_chunks` (src lines 95-113), fuel-indexed.  Each iteration
advances `pos` by at least 76, so `data.length + 1` fuel always suffices. -/
def readChunksLoop (data : List Nat) : Nat → Nat → List Chunk
  | 0, _ => []
  | fuel + 1, pos =>
    if pos < data.length then
      if pos + 76 ≤ data.length then
        if beBytes (slice data (pos + 4) 4) < 76 then
          readChunksLoop data fuel (pos + 76)
        else
          { ctype := slice data pos 4,
            cid := beBytes (slice data (pos + 8) 2),
            payload := slice data (pos + 76) (beBytes (slice data (pos + 4) 4) - 76) } ::
            readChunksLoop data fuel (pos + beBytes (slice data (pos + 4) 4))
      else []
    else []

/-- `_read_chunks`: parse all chunks of an IFF file, starting after the
64-byte file header. -/
def _read_chunks (data : List Nat) : List Chunk :=
  readChunksLoop data (data.length + 1) 64

/-- `_read_null_terminated_string` (src lines 122-129).  `none` models the
ValueError raised by `data.index` when no null byte follows `offset`.
Strings are kept as their byte lists (the source decodes ASCII with
one replacement character per invalid byte, so byte count = char count). -/
def _read_null_terminated_string (data : List Nat) (offset : Nat) :
    Option (List Nat × Nat) :=
  match (data.drop offset).findIdx? (· == 0) with
  | none => none
  | some i => some ((data.drop offset).take i, offset + i + 1)

/-- Personality trait fields (src lines 19-25). -/
structure Personality where
  nice : Int
  active : Int
  playful : Int
  outgoing : Int
  neat : Int
  deriving DecidableEq, Repr

/-- The 15 interest topic fields (src lines 28-47). -/
structure Interests where
  exercise : Int
  food : Int
  parties : Int
  style : Int
  hollywood : Int
  travel : Int
  violence : Int
  politics : Int
  sixties : Int
  weather : Int
  sports : Int
  music : Int
  outdoors : Int
  technology : Int
  romance : Int
  deriving DecidableEq, Repr

/-- A directed relationship edge (src lines 50-54). -/
structure Relationship where
  daily : Int
  is_friend : Bool
  lifetime : Int
  deriving DecidableEq, Repr

/-- A roster entry (src lines 57-69).  `name` is its byte list; the
relationship dict is an insertion-ordered association list. -/
structure Sim where
  id : Int
  guid : Nat
  name : List Nat
  age : String
  gender : String
  family_number : Int
  personality : Personality
  interests : Interests
  zodiac : Int
  relationships : List (Int × Relationship)
  deriving DecidableEq, Repr

/-- A family definition (src lines 72-79). -/
structure Family where
  chunk_id : Nat
  family_number : Int
  name : List Nat
  house_number : Int
  budget : Int
  member_guids : List Nat
  deriving DecidableEq, Repr

/-- `HOTDATE_INTEREST_INDICES` (src line 137). -/
def HOTDATE_INTEREST_INDICES : List Nat := [13, 14, 16, 20, 26, 54, 55]

/-- `BASE_INTEREST_INDICES` (src line 144). -/
def BASE_INTEREST_INDICES : List Nat := [46, 47, 48, 49, 50, 51, 52, 53]

/-- `INTEREST_INDICES` (src line 151). -/
def INTEREST_INDICES : List Nat := HOTDATE_INTEREST_INDICES ++ BASE_INTEREST_INDICES

/-- `max(raws) if raws else 0` (src lines 271 and 275). -/
def pymax : List Int → Int
  | [] => 0
  | x :: xs => xs.foldl max x

/-- The per-group interest normalization of src lines 271-277: scale a group
by 100 when its maximum raw value is at most 10, else pass it through. -/
def normalizeGroup (raws : List Int) : List Int :=
  if pymax raws ≤ 10 then raws.map (fun v => v * 100) else raws

/-- Interest extraction and normalization (src lines 268-298): the two index
groups are read from the trait vector and normalized independently. -/
def extractInterests (shorts : List Int) : Interests :=
  let raw_base := normalizeGroup (BASE_INTEREST_INDICES.map (fun i => getI shorts i))
  let raw_hotdate := normalizeGroup (HOTDATE_INTEREST_INDICES.map (fun i => getI shorts i))
  { exercise := getI raw_hotdate 0
    food := getI raw_hotdate 1
    parties := getI raw_hotdate 2
    style := getI raw_hotdate 3
    hollywood := getI raw_hotdate 4
    travel := getI raw_base 0
    violence := getI raw_base 1
    politics := getI raw_base 2
    sixties := getI raw_base 3
    weather := getI raw_base 4
    sports := getI raw_base 5
    music := getI raw_base 6
    outdoors := getI raw_base 7
    technology := getI raw_hotdate 5
    romance := getI raw_hotdate 6 }

/-- Trait-block total size by per-record version (src lines 206-209). -/
def person_data_size (nbr_version : Int) : Nat :=
  if nbr_version = 0xA then 512 else 160

/-- `min(88, person_data_size // 2)`: number of shorts actually read from
the trait block (src line 212). -/
def num_shorts (nbr_version : Int) : Nat :=
  min 88 (person_data_size nbr_version / 2)

/-- Field extraction from an 88-entry trait vector (src lines 256-323). -/
def mkSim (neighbour_id : Int) (guid : Nat) (name : List Nat)
    (shorts : List Int) (relationships : List (Int × Relationship)) : Sim :=
  { id := neighbour_id
    guid := guid
    name := name
    age := if getI shorts 58 < 18 then "child" else "adult"
    gender := if getI shorts 65 = 1 then "female" else "male"
    family_number := getI shorts 61
    personality :=
      { nice := getI shorts 2, active := getI shorts 3, playful := getI shorts 5,
        outgoing := getI shorts 6, neat := getI shorts 7 }
    interests := extractInterests shorts
    zodiac := getI shorts 70
    relationships := relationships }

/-- One relationship sub-record (loop body of src lines 237-250): key count,
target id (the int32 right after the key count), key skip, value count,
values [daily, is-friend, lifetime].  A negative value count models the
struct.error raised by the malformed format string.  Returns the parsed
(target id, relationship) pair and the cursor after the sub-record. -/
def relSubRecord (data : List Nat) (pos : Nat) :
    Option ((Int × Relationship) × Nat) :=
  match readI32 data pos with
  | none => none
  | some key_count =>
    match readI32 data (pos + 4) with
    | none => none
    | some rel_key =>
      match readI32 data (pos + 4 + 4 * key_count.toNat) with
      | none => none
      | some value_count =>
        if value_count < 0 then none
        else
          match readBytes data (pos + 8 + 4 * key_count.toNat) (4 * value_count.toNat) with
          | none => none
          | some bs =>
            some ((rel_key,
              { daily := getI (i32List bs) 0,
                is_friend := getI (i32List bs) 1 != 0,
                lifetime := getI (i32List bs) 2 }),
              pos + 8 + 4 * key_count.toNat + 4 * value_count.toNat)

/-- The relationship loop of src lines 236-250, iterated `rel_count` times;
each parsed sub-record is written into the dict, later targets
overwriting earlier ones. -/
def relLoop (data : List Nat) :
    Nat → Nat → List (Int × Relationship) → Option (List (Int × Relationship) × Nat)
  | 0, pos, m => some (m, pos)
  | n + 1, pos, m =>
    match relSubRecord data pos with
    | none => none
    | some krp => relLoop data n krp.2 (dictInsert m krp.1.1 krp.1.2)

/-- Per-record loop of `_parse_nbrs` (src lines 168-324), iterated `count`
times.  A presence marker other than 1 consumes its 4 bytes and continues
with the next slot.  Records with `person_mode ≤ 0` or fewer than 88 trait
shorts are fully consumed but discarded. -/
def nbrsLoop (data : List Nat) : Nat → Nat → List Sim → Option (List Sim)
  | 0, _, sims => some sims
  | n + 1, pos, sims =>
    match readI32 data pos with
    | none => none
    | some unknown1 =>
      if unknown1 ≠ 1 then nbrsLoop data n (pos + 4) sims
      else
        match readI32 data (pos + 4) with
        | none => none
        | some nbr_version =>
          match (if nbr_version = 0xA then
                   (readI32 data (pos + 8)).map (fun _ => pos + 12)
                 else some (pos + 8)) with
          | none => none
          | some pos1 =>
            match _read_null_terminated_string data pos1 with
            | none => none
            | some np =>
              let name := np.1
              let pos2 := if name.length % 2 = 0 then np.2 + 1 else np.2
              match readI32 data pos2 with
              | none => none
              | some _mystery_zero =>
                match readI32 data (pos2 + 4) with
                | none => none
                | some person_mode =>
                  match (if 0 < person_mode then
                           (readBytes data (pos2 + 8) (2 * num_shorts nbr_version)).map
                             (fun bs => (i16List bs, pos2 + 8 + person_data_size nbr_version))
                         else some (([] : List Int), pos2 + 8)) with
                  | none => none
                  | some sp =>
                    let person_data_shorts := sp.1
                    let pos3 := sp.2
                    match readI16 data pos3 with
                    | none => none
                    | some neighbour_id =>
                      match readU32 data (pos3 + 2) with
                      | none => none
                      | some guid =>
                        match readI32 data (pos3 + 6) with
                        | none => none
                        | some _unknown_neg_one =>
                          match readI32 data (pos3 + 10) with
                          | none => none
                          | some rel_count =>
                            match relLoop data rel_count.toNat (pos3 + 14) [] with
                            | none => none
                            | some rl =>
                              if person_mode ≤ 0 ∨ person_data_shorts.length < 88 then
                                nbrsLoop data n rl.2 sims
                              else
                                nbrsLoop data n rl.2
                                  (sims ++ [mkSim neighbour_id guid name person_data_shorts rl.1])

/-- `_parse_nbrs` (src lines 155-326): header pad, version, magic "SRBN"
(else an empty result), record count, then the record loop. -/
def _parse_nbrs (data : List Nat) : Option (List Sim) :=
  if data.length < 16 then none
  else if slice data 8 4 ≠ [83, 82, 66, 78] then some []
  else nbrsLoop data (leBytes (slice data 12 4)) 16 []

/-- Total little-endian signed 32-bit read, used where the source has already
checked that the buffer is long enough. -/
def i32At (data : List Nat) (pos : Nat) : Int := toSigned 4 (leBytes (slice data pos 4))

/-- Member-guid loop of `_parse_fami` (src lines 355-359). -/
def famiGuidLoop (data : List Nat) : Nat → Nat → List Nat → Option (List Nat)
  | 0, _, acc => some acc
  | n + 1, pos, acc =>
    match readU32 data pos with
    | none => none
    | some g => famiGuidLoop data n (pos + 4) (acc ++ [g])

/-- `_parse_fami` (src lines 333-368).  The inner `Option` is the source's
`None` result (payload shorter than 40 bytes or wrong magic "IMAF"); the
outer `none` is a struct.error raised while reading member guids. -/
def _parse_fami (data : List Nat) (chunk_id : Nat) : Option (Option Family) :=
  if data.length < 40 then some none
  else if slice data 8 4 ≠ [73, 77, 65, 70] then some none
  else
    match famiGuidLoop data (i32At data 36).toNat 40 [] with
    | none => none
    | some guids =>
      some (some
        { chunk_id := chunk_id
          family_number := i32At data 16
          name := []
          house_number := i32At data 12
          budget := i32At data 20
          member_guids := guids })

/-- `_parse_fams` (src lines 375-395): STR format code -3, first string value.
An unsupported format code or zero count yields the empty result; the outer
`none` models the IndexError / ValueError raised on a too-short payload. -/
def _parse_fams (data : List Nat) : Option (List Nat) :=
  if data.length < 4 then some []
  else if toSigned 2 (leBytes (slice data 0 2)) ≠ -3 ∨ leBytes (slice data 2 2) = 0 then
    some []
  else if data.length ≤ 4 then none
  else
    match _read_null_terminated_string data 5 with
    | none => none
    | some vp => some vp.1

/-- Character display name and optional raw portrait bytes (src lines 402-405). -/
structure CharacterInfo where
  name : List Nat
  portrait : Option (List Nat)
  deriving DecidableEq, Repr

/-- Chunk type tag "NBRS". -/
def nbrsTag : List Nat := [78, 66, 82, 83]

/-- Chunk type tag "FAMI". -/
def famiTag : List Nat := [70, 65, 77, 73]

/-- Chunk type tag "FAMs". -/
def famsTag : List Nat := [70, 65, 77, 115]

/-- Chunk type tag "CTSS". -/
def ctssTag : List Nat := [67, 84, 83, 83]

/-- Chunk type tag "OBJD". -/
def objdTag : List Nat := [79, 66, 74, 68]

/-- Chunk type tag "BMP_". -/
def bmpTag : List Nat := [66, 77, 80, 95]

/-- Chunk walk of `_scan_characters` (src lines 436-470), restructured to
yield the (type, id, payload) triples the scanner's loop body iterates over.
Unlike `readChunksLoop`, a declared size below 76 stops the walk. -/
def scanChunksLoop (data : List Nat) : Nat → Nat → List Chunk
  | 0, _ => []
  | fuel + 1, pos =>
    if pos + 76 ≤ data.length then
      if beBytes (slice data (pos + 4) 4) < 76 then []
      else
        { ctype := slice data pos 4,
          cid := beBytes (slice data (pos + 8) 2),
          payload := slice data (pos + 76) (beBytes (slice data (pos + 4) 4) - 76) } ::
          scanChunksLoop data fuel (pos + beBytes (slice data (pos + 4) 4))
    else []

/-- The triple sequence the Character File Scanner iterates over for one file. -/
def scanChunkSeq (data : List Nat) : List Chunk :=
  scanChunksLoop data (data.length + 1) 64

/-- Loop body of `_scan_characters` (src lines 445-468) acting on the
(name, guid, portrait) accumulators: first decodable CTSS name, first OBJD
guid at payload offset 28, first "BM"-signed BMP_ chunk with numeric id 2007. -/
def scanFileStep (st : Option (List Nat) × Option Nat × Option (List Nat)) (c : Chunk) :
    Option (List Nat) × Option Nat × Option (List Nat) :=
  let name1 :=
    if c.ctype = ctssTag ∧ st.1 = none ∧ 6 ≤ c.payload.length then
      (if toSigned 2 (leBytes (slice c.payload 0 2)) = -3 then
        (if 0 < leBytes (slice c.payload 2 2) then
          some ((c.payload.drop 5).takeWhile (fun b => b != 0))
        else st.1)
      else st.1)
    else st.1
  let guid1 :=
    if c.ctype = objdTag ∧ st.2.1 = none ∧ 32 ≤ c.payload.length then
      some (leBytes (slice c.payload 28 4))
    else st.2.1
  let portrait1 :=
    if c.ctype = bmpTag ∧ c.cid = 2007 ∧ st.2.2 = none ∧ 2 ≤ c.payload.length ∧
        slice c.payload 0 2 = [66, 77] then
      some c.payload
    else st.2.2
  (name1, guid1, portrait1)

/-- The (name, guid, portrait) accumulators after walking one file's chunks. -/
def scanCharFileState (data : List Nat) :
    Option (List Nat) × Option Nat × Option (List Nat) :=
  (scanChunkSeq data).foldl scanFileStep (none, none, none)

/-- Per-file result of `_scan_characters` (src lines 472-473): an entry is
produced exactly when a guid and a non-empty name were found; a missing
portrait is not disqualifying. -/
def scanCharFile (data : List Nat) : Option (Nat × CharacterInfo) :=
  match scanCharFileState data with
  | (some nm, some g, p) =>
    if nm ≠ [] then some (g, { name := nm, portrait := p }) else none
  | (_, _, _) => none

/-- `_scan_characters` (src lines 408-475) over in-memory file buffers, the
directory traversal being an external I/O shim.  Files shorter than 64 bytes
are skipped; each per-file result is written into the guid dict. -/
def _scan_characters (files : List (List Nat)) : List (Nat × CharacterInfo) :=
  files.foldl
    (fun m fdata =>
      if fdata.length < 64 then m
      else
        match scanCharFile fdata with
        | some gi => dictInsert m gi.1 gi.2
        | none => m)
    []

/-- First pass of `parse_neighborhood` (src lines 502-512): dispatch each
chunk by type tag, accumulating sims, families and the chunk-id → name dict. -/
def dispatchChunks (data : List Nat) :
    List Chunk → List Sim → List Family → List (Nat × List Nat) →
    Option (List Sim × List Family × List (Nat × List Nat))
  | [], sims, families, family_names => some (sims, families, family_names)
  | c :: rest, sims, families, family_names =>
    if c.ctype = nbrsTag then
      match _parse_nbrs c.payload with
      | none => none
      | some s => dispatchChunks data rest (sims ++ s) families family_names
    else if c.ctype = famiTag then
      match _parse_fami c.payload c.cid with
      | none => none
      | some none => dispatchChunks data rest sims families family_names
      | some (some fam) => dispatchChunks data rest sims (families ++ [fam]) family_names
    else if c.ctype = famsTag then
      match _parse_fams c.payload with
      | none => none
      | some nm =>
        if nm ≠ [] then
          dispatchChunks data rest sims families (dictInsert family_names c.cid nm)
        else dispatchChunks data rest sims families family_names
    else dispatchChunks data rest sims families family_names

/-- `parse_neighborhood` (src lines 482-538) over the main container bytes
and the character-file buffers: dispatch chunks, join family names by chunk
id, re-home each sim's family reference through the member-guid dict, then
overwrite sim names from the character scan. -/
def parse_neighborhood (data : List Nat) (characterFiles : List (List Nat)) :
    Option (List Sim × List Family × List (Nat × CharacterInfo)) :=
  match dispatchChunks data (_read_chunks data) [] [] [] with
  | none => none
  | some (sims, families, family_names) =>
    let families := families.map (fun family =>
      match dictGet? family_names family.chunk_id with
      | some nm => { family with name := nm }
      | none => family)
    let guid_to_family := families.foldl
      (fun m family => family.member_guids.foldl (fun m2 g => dictInsert m2 g family) m) []
    let sims := sims.map (fun sim =>
      match dictGet? guid_to_family sim.guid with
      | some family => { sim with family_number := (family.chunk_id : Int) }
      | none => sim)
    let guid_to_info := _scan_characters characterFiles
    let sims := sims.map (fun sim =>
      match dictGet? guid_to_info sim.guid with
      | some info => { sim with name := info.name }
      | none => sim)
    some (sims, families, guid_to_info)

/-- Little-endian 16-bit encoding of a value. -/
def u16le (n : Nat) : List Nat := [n % 256, n / 256 % 256]

/-- Little-endian 32-bit encoding of a value. -/
def u32le (n : Nat) : List Nat :=
  [n % 256, n / 256 % 256, n / 65536 % 256, n / 16777216 % 256]

/-- Big-endian 16-bit encoding of a value. -/
def u16be (n : Nat) : List Nat := [n / 256 % 256, n % 256]

/-- Big-endian 32-bit encoding of a value. -/
def u32be (n : Nat) : List Nat :=
  [n / 16777216 % 256, n / 65536 % 256, n / 256 % 256, n % 256]

/-- Little-endian byte encoding of a list of 16-bit values. -/
def shortsLE (l : List Nat) : List Nat :=
  (l.map (fun v => [v % 256, v / 256 % 256])).flatten

/-- A chunk image: 76-byte header (type, big-endian total size, big-endian id,
zeroed flags and label) followed by the payload. -/
def mkChunk (t : List Nat) (cid : Nat) (payload : List Nat) : List Nat :=
  t ++ u32be (76 + payload.length) ++ u16be cid ++ List.replicate 66 0 ++ payload

/-- Trait block of the minimal-container roster record: 88 little-endian
shorts (personality 4,5,6,7,8; base interest index 46 = 5; age index 58 = 20;
family index 61 = 3; gender index 65 = 1) padded with zeros to 512 bytes. -/
def c2TraitBytes : List Nat :=
  shortsLE ((List.range 88).map (fun i =>
    if i = 2 then 4 else if i = 3 then 5 else if i = 5 then 6
    else if i = 6 then 7 else if i = 7 then 8 else if i = 46 then 5
    else if i = 58 then 20 else if i = 61 then 3 else if i = 65 then 1
    else 0)) ++ List.replicate 336 0

/-- NBRS payload of the minimal container: one populated record, per-record
version 0xA, name "Bob", trait mode 1, local id 5, guid 0x1234, no
relationships. -/
def c2NbrsPayload : List Nat :=
  u32le 0 ++ u32le 1 ++ [83, 82, 66, 78] ++ u32le 1 ++
  u32le 1 ++ u32le 10 ++ u32le 0 ++
  [66, 111, 98, 0] ++
  u32le 0 ++ u32le 1 ++
  c2TraitBytes ++
  [5, 0] ++ u32le 4660 ++ u32le 0 ++ u32le 0

/-- FAMI payload of the minimal container: house 7, family number 3, budget
1000, one member guid 0x1234. -/
def c2FamiPayload : List Nat :=
  u32le 0 ++ u32le 9 ++ [73, 77, 65, 70] ++
  u32le 7 ++ u32le 3 ++ u32le 1000 ++
  u32le 0 ++ u32le 0 ++ u32le 0 ++
  u32le 1 ++ u32le 4660

/-- FAMs payload of the minimal container: format code -3, one entry,
language 1, value "Goth", empty comment. -/
def c2FamsPayload : List Nat :=
  [253, 255] ++ [1, 0] ++ [1] ++ [71, 111, 116, 104, 0, 0]

/-- The hand-constructed minimal container: 64-byte file header, one NBRS
chunk (id 1), one FAMI chunk (id 2), one FAMs chunk sharing id 2. -/
def c2Container : List Nat :=
  List.replicate 64 0 ++ mkChunk nbrsTag 1 c2NbrsPayload ++
  mkChunk famiTag 2 c2FamiPayload ++ mkChunk famsTag 2 c2FamsPayload

/-- The decoded sim of the minimal container, after orchestration re-homed
its family reference to the family's chunk id 2. -/
def c2Sim : Sim :=
  { id := 5, guid := 4660, name := [66, 111, 98], age := "adult",
    gender := "female", family_number := 2,
    personality := ⟨4, 5, 6, 7, 8⟩,
    interests :=
      { exercise := 0, food := 0, parties := 0, style := 0, hollywood := 0,
        travel := 500, violence := 0, politics := 0, sixties := 0, weather := 0,
        sports := 0, music := 0, outdoors := 0, technology := 0, romance := 0 },
    zodiac := 0, relationships := [] }

/-- The decoded family of the minimal container, with its name joined from
the FAMs chunk. -/
def c2Family : Family :=
  { chunk_id := 2, family_number := 3, name := [71, 111, 116, 104],
    house_number := 7, budget := 1000, member_guids := [4660] }

/-- NBRS payload with one populated record whose per-record version is 1
(not the 0xA sentinel), trait mode 1, a full 160-byte trait block and a
valid trailer: the parser reads only 80 shorts from the block, so the
record is discarded. -/
def c1NonSentinel : List Nat :=
  u32le 0 ++ u32le 1 ++ [83, 82, 66, 78] ++ u32le 1 ++
  u32le 1 ++ u32le 1 ++
  [65, 108, 0, 0] ++
  u32le 0 ++ u32le 1 ++
  List.replicate 160 0 ++
  [2, 0] ++ u32le 9 ++ u32le 0 ++ u32le 0

/-- NBRS payload with two version-0xA records whose 512-byte trait blocks
are padded beyond the 176 meaningful bytes with nonzero junk (0xEE): the
second record parses correctly only because the cursor advances by the full
512 bytes, not by 176. -/
def c1TwoRecords : List Nat :=
  u32le 0 ++ u32le 1 ++ [83, 82, 66, 78] ++ u32le 2 ++
  u32le 1 ++ u32le 10 ++ u32le 0 ++
  [74, 111, 0, 0] ++
  u32le 0 ++ u32le 1 ++
  shortsLE ((List.range 88).map (fun i => if i = 58 then 20 else 0)) ++
  List.replicate 336 238 ++
  [1, 0] ++ u32le 100 ++ u32le 0 ++ u32le 0 ++
  u32le 1 ++ u32le 10 ++ u32le 0 ++
  [77, 97, 120, 0] ++
  u32le 0 ++ u32le 1 ++
  List.replicate 512 0 ++
  [2, 0] ++ u32le 200 ++ u32le 0 ++ u32le 0

/-- First decoded sim of `c1TwoRecords`. -/
def c1SimA : Sim :=
  { id := 1, guid := 100, name := [74, 111], age := "adult", gender := "male",
    family_number := 0, personality := ⟨0, 0, 0, 0, 0⟩,
    interests :=
      { exercise := 0, food := 0, parties := 0, style := 0, hollywood := 0,
        travel := 0, violence := 0, politics := 0, sixties := 0, weather := 0,
        sports := 0, music := 0, outdoors := 0, technology := 0, romance := 0 },
    zodiac := 0, relationships := [] }

/-- Second decoded sim of `c1TwoRecords`. -/
def c1SimB : Sim :=
  { id := 2, guid := 200, name := [77, 97, 120], age := "child", gender := "male",
    family_number := 0, personality := ⟨0, 0, 0, 0, 0⟩,
    interests :=
      { exercise := 0, food := 0, parties := 0, style := 0, hollywood := 0,
        travel := 0, violence := 0, politics := 0, sixties := 0, weather := 0,
        sports := 0, music := 0, outdoors := 0, technology := 0, romance := 0 },
    zodiac := 0, relationships := [] }

/-- NBRS payload with one version-0xA record whose base-group interest at
trait index 46 is the raw value 2000 (so the group is passed through
unscaled). -/
def c3Payload : List Nat :=
  u32le 0 ++ u32le 1 ++ [83, 82, 66, 78] ++ u32le 1 ++
  u32le 1 ++ u32le 10 ++ u32le 0 ++
  [69, 118, 101, 0] ++
  u32le 0 ++ u32le 1 ++
  shortsLE ((List.range 88).map (fun i =>
    if i = 46 then 2000 else if i = 58 then 20 else 0)) ++
  List.replicate 336 0 ++
  [1, 0] ++ u32le 9 ++ u32le 0 ++ u32le 0

/-- The decoded sim of `c3Payload`: its travel interest is 2000. -/
def c3Sim : Sim :=
  { id := 1, guid := 9, name := [69, 118, 101], age := "adult", gender := "male",
    family_number := 0, personality := ⟨0, 0, 0, 0, 0⟩,
    interests :=
      { exercise := 0, food := 0, parties := 0, style := 0, hollywood := 0,
        travel := 2000, violence := 0, politics := 0, sixties := 0, weather := 0,
        sports := 0, music := 0, outdoors := 0, technology := 0, romance := 0 },
    zodiac := 0, relationships := [] }

/-- A container whose single FAMI chunk declares a total size of 200 while
only 20 payload bytes exist: the declared read runs 104 bytes past the end
of the buffer. -/
def c5Buf : List Nat :=
  List.replicate 64 0 ++
  famiTag ++ u32be 200 ++ u16be 2 ++ List.replicate 66 0 ++ List.replicate 20 0

/-- A container starting with a malformed chunk (declared size 10 < 76)
followed by a well-formed chunk of type "ABCD". -/
def c6Buf : List Nat :=
  List.replicate 64 0 ++
  [88, 88, 88, 88] ++ u32be 10 ++ u16be 1 ++ List.replicate 66 0 ++
  mkChunk [65, 66, 67, 68] 3 [1, 2, 3, 4]

/-- A container starting with a malformed chunk (declared size 10 < 76)
followed by a well-formed chunk of type "EFGH". -/
def c7Buf : List Nat :=
  List.replicate 64 0 ++
  [89, 89, 89, 89] ++ u32be 10 ++ u16be 7 ++ List.replicate 66 0 ++
  mkChunk [69, 70, 71, 72] 4 [9]

/-- A character file with an OBJD chunk (guid 777 at payload offset 28) and
a CTSS chunk (format -3, one entry, name "Ann"), but no BMP_ chunk. -/
def c8File : List Nat :=
  List.replicate 64 0 ++
  mkChunk objdTag 1 (List.replicate 28 0 ++ u32le 777) ++
  mkChunk ctssTag 5 ([253, 255] ++ [1, 0] ++ [0] ++ [65, 110, 110, 0])

/-- Relationship sub-record bytes with key count 0: the int32 right after
the key count (value 2) is read as the target id and then re-read as the
value count; the two values 7 and 1 follow. -/
def c10Bytes : List Nat := u32le 0 ++ u32le 2 ++ u32le 7 ++ u32le 1

/-- All 15 interest fields lie within the normalized 0..1000 range. -/
def interestsInRange (it : Interests) : Prop :=
  (0 ≤ it.exercise ∧ it.exercise ≤ 1000) ∧
  (0 ≤ it.food ∧ it.food ≤ 1000) ∧
  (0 ≤ it.parties ∧ it.parties ≤ 1000) ∧
  (0 ≤ it.style ∧ it.style ≤ 1000) ∧
  (0 ≤ it.hollywood ∧ it.hollywood ≤ 1000) ∧
  (0 ≤ it.travel ∧ it.travel ≤ 1000) ∧
  (0 ≤ it.violence ∧ it.violence ≤ 1000) ∧
  (0 ≤ it.politics ∧ it.politics ≤ 1000) ∧
  (0 ≤ it.sixties ∧ it.sixties ≤ 1000) ∧
  (0 ≤ it.weather ∧ it.weather ≤ 1000) ∧
  (0 ≤ it.sports ∧ it.sports ≤ 1000) ∧
  (0 ≤ it.music ∧ it.music ≤ 1000) ∧
  (0 ≤ it.outdoors ∧ it.outdoors ≤ 1000) ∧
  (0 ≤ it.technology ∧ it.technology ≤ 1000) ∧
  (0 ≤ it.romance ∧ it.romance ≤ 1000)

instance (it : Interests) : Decidable (interestsInRange it) := by
  unfold interestsInRange
  infer_instance

/-- The length of a slice is the declared length clipped at the buffer end. -/
theorem slice_length (data : List Nat) (pos n : Nat) :
    (slice data pos n).length = min n (data.length - pos) := by
  simp [slice]

/-- Bounding a left fold of `max` by an upper bound of the seed and elements. -/
theorem foldl_max_le_bound :
    ∀ (xs : List Int) (a b : Int), a ≤ b → (∀ v ∈ xs, v ≤ b) → xs.foldl max a ≤ b
  | [], _, _, ha, _ => ha
  | x :: xs, a, b, ha, h =>
    foldl_max_le_bound xs (max a x) b (max_le ha (h x (List.mem_cons_self x xs)))
      (fun v hv => h v (List.mem_cons_of_mem x hv))

/-- The seed is below a left fold of `max`. -/
theorem le_foldl_max : ∀ (xs : List Int) (a : Int), a ≤ xs.foldl max a
  | [], _ => le_refl _
  | x :: xs, a => le_trans (le_max_left a x) (le_foldl_max xs (max a x))

/-- Every element is below a left fold of `max`. -/
theorem mem_le_foldl_max : ∀ (xs : List Int) (a v : Int), v ∈ xs → v ≤ xs.foldl max a
  | [], _, v, hv => absurd hv (List.not_mem_nil v)
  | x :: xs, a, v, hv => by
    rcases List.mem_cons.mp hv with h | h
    · subst h; exact le_trans (le_max_right a v) (le_foldl_max xs (max a v))
    · exact mem_le_foldl_max xs (max a x) v h

/-- `pymax` bounds every element of the list from above. -/
theorem le_pymax (l : List Int) (v : Int) (hv : v ∈ l) : v ≤ pymax l := by
  cases l with
  | nil => exact absurd hv (List.not_mem_nil v)
  | cons x xs =>
    rcases List.mem_cons.mp hv with h | h
    · subst h; exact le_foldl_max xs v
    · exact mem_le_foldl_max xs x v h

/-- A nonnegative upper bound of all elements bounds `pymax`. -/
theorem pymax_le (l : List Int) (b : Int) (hb : 0 ≤ b) (h : ∀ v ∈ l, v ≤ b) :
    pymax l ≤ b := by
  cases l with
  | nil => exact hb
  | cons x xs =>
    exact foldl_max_le_bound xs x b (h x (List.mem_cons_self x xs))
      (fun v hv => h v (List.mem_cons_of_mem x hv))

/-- The group normalization scales by 100 exactly when every raw value is at
most 10, and passes the group through when some raw value exceeds 10. -/
theorem normalizeGroup_spec (raws : List Int) :
    ((∀ v ∈ raws, v ≤ 10) → normalizeGroup raws = raws.map (fun v => v * 100)) ∧
    ((∃ v ∈ raws, 10 < v) → normalizeGroup raws = raws) := by
  constructor
  · intro h
    unfold normalizeGroup
    rw [if_pos (pymax_le raws 10 (by norm_num) h)]
  · rintro ⟨v, hv, hlt⟩
    unfold normalizeGroup
    rw [if_neg (by have := le_pymax raws v hv; omega)]

/-- If every raw value of a group lies in 0..1000, so does every indexed
value of the normalized group. -/
theorem normalizeGroup_bounds (raws : List Int)
    (h : ∀ v ∈ raws, 0 ≤ v ∧ v ≤ 1000) (j : Nat) :
    0 ≤ getI (normalizeGroup raws) j ∧ getI (normalizeGroup raws) j ≤ 1000 := by
  unfold normalizeGroup getI
  by_cases hm : pymax raws ≤ 10
  · rw [if_pos hm]
    rw [List.get?_map]
    cases hr : raws.get? j with
    | none => simp
    | some v =>
      have hv : v ∈ raws := List.get?_mem hr
      have hb := h v hv
      have hx := le_pymax raws v hv
      simp only [Option.map_some', Option.getD_some]
      omega
  · rw [if_neg hm]
    cases hr : raws.get? j with
    | none => simp
    | some v =>
      have hv : v ∈ raws := List.get?_mem hr
      have hb := h v hv
      simp only [hr, Option.getD_some]
      omega

/-- Looking a key up right after writing it yields the written value. -/
theorem dictGet_insert {α β : Type} [DecidableEq α] :
    ∀ (m : List (α × β)) (k : α) (v : β), dictGet? (dictInsert m k v) k = some v
  | [], k, v => by simp [dictInsert, dictGet?]
  | p :: ps, k, v => by
    by_cases hp : p.1 = k
    · simp [dictInsert, dictGet?, hp]
    · simp [dictInsert, dictGet?, hp, dictGet_insert ps k v]

/-- The scanner's chunk walk is always an initial segment of the Chunk
Reader's walk: identical until a malformed chunk stops the scanner. -/
theorem scan_prefix_read (data : List Nat) :
    ∀ (fuel pos : Nat),
      List.IsPrefix (scanChunksLoop data fuel pos) (readChunksLoop data fuel pos) := by
  intro fuel
  induction fuel with
  | zero =>
    intro pos
    simp only [scanChunksLoop, readChunksLoop]
    exact List.nil_prefix
  | succ n ih =>
    intro pos
    simp only [scanChunksLoop, readChunksLoop]
    by_cases h1 : pos + 76 ≤ data.length
    · have h0 : pos < data.length := by omega
      rw [if_pos h1, if_pos h0, if_pos h1]
      by_cases h2 : beBytes (slice data (pos + 4) 4) < 76
      · rw [if_pos h2, if_pos h2]
        exact List.nil_prefix
      · rw [if_neg h2, if_neg h2]
        obtain ⟨t, ht⟩ := ih (pos + beBytes (slice data (pos + 4) 4))
        exact ⟨t, by rw [List.cons_append, ht]⟩
    · rw [if_neg h1]
      by_cases h0 : pos < data.length
      · rw [if_pos h0, if_neg h1]
      · rw [if_neg h0]

/-- C1 (counterexample): for per-record version 1 (not the 0xA sentinel) the
roster parser reads 80 shorts from the 160-byte trait block, not the first
88 as claimed — 88 shorts (176 bytes) do not fit in 160 bytes — and an
otherwise valid record with such a block yields no sim because its trait
vector is short of 88 entries. -/
theorem c1_cex :
    num_shorts 1 = 80 ∧ ¬ num_shorts 1 = 88 ∧ _parse_nbrs c1NonSentinel = some [] :=
  ⟨by decide, by decide, by decide⟩

/-- C1 (amended): the roster parser reads min(88, block size / 2) shorts from
the trait block — 88 for the 512-byte sentinel-version block, 80 for the
160-byte block of every other version — and advances the cursor by the full
block size; on a concrete two-record payload whose first 512-byte block is
padded with nonzero junk past its 176 meaningful bytes, both records decode
correctly, witnessing the full-block cursor advance. -/
theorem c1_amended :
    (∀ v : Int,
      (v = 0xA → num_shorts v = 88 ∧ person_data_size v = 512) ∧
      (v ≠ 0xA → num_shorts v = 80 ∧ person_data_size v = 160)) ∧
    _parse_nbrs c1TwoRecords = some [c1SimA, c1SimB] := by
  refine ⟨fun v => ⟨fun hv => ?_, fun hv => ?_⟩, ?_⟩
  · subst hv
    exact ⟨by decide, by decide⟩
  · constructor
    · simp [num_shorts, person_data_size, hv]
    · simp [person_data_size, hv]
  · decide

/-- C1 (witness): the amended block-size rule evaluated at the sentinel
version 0xA and at the non-sentinel version 3. -/
theorem c1_amended_w :
    num_shorts 0xA = 88 ∧ person_data_size 0xA = 512 ∧
    num_shorts 3 = 80 ∧ person_data_size 3 = 160 :=
  ⟨((c1_amended.1 0xA).1 rfl).1, ((c1_amended.1 0xA).1 rfl).2,
   ((c1_amended.1 3).2 (by decide)).1, ((c1_amended.1 3).2 (by decide)).2⟩

/-- C2: on the hand-constructed minimal container (one roster record with a
valid trait vector, one family record whose member list holds the record's
guid, one string-table chunk sharing the family chunk's id), the
orchestrator's decoded sim has its family reference equal to the decoded
family's chunk id, and the family's name equals the string-table's first
string value. -/
theorem c2_roundtrip :
    parse_neighborhood c2Container [] = some ([c2Sim], [c2Family], []) ∧
    c2Sim.family_number = (c2Family.chunk_id : Int) ∧
    _parse_fams c2FamsPayload = some c2Family.name :=
  ⟨by decide, by decide, by decide⟩

/-- C3 (counterexample): a roster record whose base-group trait value at
index 46 is 2000 passes the group through unscaled, so the produced sim's
travel interest is 2000, outside the claimed range 0..1000. -/
theorem c3_cex :
    _parse_nbrs c3Payload = some [c3Sim] ∧
    c3Sim.interests.travel = 2000 ∧
    ¬ interestsInRange c3Sim.interests :=
  ⟨by decide, by decide, by decide⟩

/-- C3 (amended): every one of the 15 interest values produced by the group
normalization lies in 0..1000 provided every raw trait value at the 15
interest indices lies in 0..1000. -/
theorem c3_bounds (shorts : List Int)
    (h : ∀ i ∈ INTEREST_INDICES, 0 ≤ getI shorts i ∧ getI shorts i ≤ 1000) :
    interestsInRange (extractInterests shorts) := by
  have hh : ∀ v ∈ HOTDATE_INTEREST_INDICES.map (fun i => getI shorts i),
      0 ≤ v ∧ v ≤ 1000 := by
    intro v hv
    rcases List.mem_map.mp hv with ⟨i, hi, rfl⟩
    exact h i (by simp only [INTEREST_INDICES]; exact List.mem_append_left _ hi)
  have hb : ∀ v ∈ BASE_INTEREST_INDICES.map (fun i => getI shorts i),
      0 ≤ v ∧ v ≤ 1000 := by
    intro v hv
    rcases List.mem_map.mp hv with ⟨i, hi, rfl⟩
    exact h i (by simp only [INTEREST_INDICES]; exact List.mem_append_right _ hi)
  simp only [interestsInRange, extractInterests]
  exact ⟨normalizeGroup_bounds _ hh 0, normalizeGroup_bounds _ hh 1,
    normalizeGroup_bounds _ hh 2, normalizeGroup_bounds _ hh 3,
    normalizeGroup_bounds _ hh 4,
    normalizeGroup_bounds _ hb 0, normalizeGroup_bounds _ hb 1,
    normalizeGroup_bounds _ hb 2, normalizeGroup_bounds _ hb 3,
    normalizeGroup_bounds _ hb 4, normalizeGroup_bounds _ hb 5,
    normalizeGroup_bounds _ hb 6, normalizeGroup_bounds _ hb 7,
    normalizeGroup_bounds _ hh 5, normalizeGroup_bounds _ hh 6⟩

/-- C3 (witness): the amended bound evaluated on a trait vector of 88
sevens. -/
theorem c3_bounds_w : interestsInRange (extractInterests (List.replicate 88 7)) :=
  c3_bounds (List.replicate 88 7) (by decide)

/-- C4: for each of the two interest index groups, normalized independently:
if every raw value of the group is at most 10, every output equals its raw
value times 100; if some raw value exceeds 10, the group is passed through
unchanged. -/
theorem c4_group_scaling (shorts : List Int) :
    (((∀ v ∈ BASE_INTEREST_INDICES.map (fun i => getI shorts i), v ≤ 10) →
        normalizeGroup (BASE_INTEREST_INDICES.map (fun i => getI shorts i)) =
          (BASE_INTEREST_INDICES.map (fun i => getI shorts i)).map (fun v => v * 100)) ∧
      ((∃ v ∈ BASE_INTEREST_INDICES.map (fun i => getI shorts i), 10 < v) →
        normalizeGroup (BASE_INTEREST_INDICES.map (fun i => getI shorts i)) =
          BASE_INTEREST_INDICES.map (fun i => getI shorts i))) ∧
    (((∀ v ∈ HOTDATE_INTEREST_INDICES.map (fun i => getI shorts i), v ≤ 10) →
        normalizeGroup (HOTDATE_INTEREST_INDICES.map (fun i => getI shorts i)) =
          (HOTDATE_INTEREST_INDICES.map (fun i => getI shorts i)).map (fun v => v * 100)) ∧
      ((∃ v ∈ HOTDATE_INTEREST_INDICES.map (fun i => getI shorts i), 10 < v) →
        normalizeGroup (HOTDATE_INTEREST_INDICES.map (fun i => getI shorts i)) =
          HOTDATE_INTEREST_INDICES.map (fun i => getI shorts i))) :=
  ⟨normalizeGroup_spec _, normalizeGroup_spec _⟩

/-- C4 (witness): a base group of all twos (maximum 2 ≤ 10) is scaled to
200s; a scattered group of all elevens (11 > 10) is passed through. -/
theorem c4_group_scaling_w :
    normalizeGroup (BASE_INTEREST_INDICES.map (fun i => getI (List.replicate 56 2) i)) =
      [200, 200, 200, 200, 200, 200, 200, 200] ∧
    normalizeGroup (HOTDATE_INTEREST_INDICES.map (fun i => getI (List.replicate 88 11) i)) =
      [11, 11, 11, 11, 11, 11, 11] :=
  ⟨((c4_group_scaling (List.replicate 56 2)).1.1 (by decide)).trans (by decide),
   ((c4_group_scaling (List.replicate 88 11)).2.2 ⟨11, by decide, by decide⟩).trans (by decide)⟩

/-- C5 (counterexample): a container whose single chunk declares total size
200 with only 20 payload bytes present is silently truncated by the chunk
reader (payload length 20 instead of the declared 124) and the whole decode
returns an empty result instead of a hard failure. -/
theorem c5_cex :
    _read_chunks c5Buf = [⟨famiTag, 2, List.replicate 20 0⟩] ∧
    (List.replicate 20 (0 : Nat)).length < 200 - 76 ∧
    parse_neighborhood c5Buf [] = some ([], [], []) :=
  ⟨by decide, by decide, by decide⟩

/-- C5 (amended): a chunk whose declared size runs past the buffer end is
silently truncated by the chunk reader — its payload is exactly the bytes
remaining after the header — and scanning continues without error; a hard
failure (a `none` result) arises only when a parser's fixed-width read runs
past the bytes available. -/
theorem c5_truncation :
    (∀ (data : List Nat) (fuel pos : Nat),
      pos + 76 ≤ data.length →
      76 ≤ beBytes (slice data (pos + 4) 4) →
      data.length < pos + beBytes (slice data (pos + 4) 4) →
      readChunksLoop data (fuel + 1) pos =
        { ctype := slice data pos 4, cid := beBytes (slice data (pos + 8) 2),
          payload := slice data (pos + 76) (beBytes (slice data (pos + 4) 4) - 76) } ::
          readChunksLoop data fuel (pos + beBytes (slice data (pos + 4) 4)) ∧
      (slice data (pos + 76) (beBytes (slice data (pos + 4) 4) - 76)).length =
        data.length - (pos + 76)) ∧
    (∀ (data : List Nat) (pos n : Nat), data.length < pos + n →
      readBytes data pos n = none) := by
  constructor
  · intro data fuel pos h1 h2 h3
    have h0 : pos < data.length := by omega
    constructor
    · simp only [readChunksLoop]
      rw [if_pos h0, if_pos h1, if_neg (by omega : ¬ beBytes (slice data (pos + 4) 4) < 76)]
    · rw [slice_length]
      omega
  · intro data pos n h
    unfold readBytes
    rw [if_neg (by omega : ¬ pos + n ≤ data.length)]

/-- C5 (witness): the truncation rule evaluated on the concrete container
`c5Buf` (declared chunk size 200, 160-byte buffer), and a failing 4-byte
read past the end of a 3-byte buffer. -/
theorem c5_truncation_w :
    readChunksLoop c5Buf 161 64 =
      { ctype := slice c5Buf 64 4, cid := beBytes (slice c5Buf 72 2),
        payload := slice c5Buf 140 (beBytes (slice c5Buf 68 4) - 76) } ::
        readChunksLoop c5Buf 160 (64 + beBytes (slice c5Buf 68 4)) ∧
    (slice c5Buf 140 (beBytes (slice c5Buf 68 4) - 76)).length = c5Buf.length - (64 + 76) ∧
    readBytes [1, 2, 3] 0 4 = none :=
  ⟨(c5_truncation.1 c5Buf 160 64 (by decide) (by decide) (by decide)).1,
   (c5_truncation.1 c5Buf 160 64 (by decide) (by decide) (by decide)).2,
   c5_truncation.2 [1, 2, 3] 0 4 (by decide)⟩

/-- C6 (counterexample): on a buffer starting with a malformed chunk
(declared size 10 < 76) followed by a well-formed chunk, the Character File
Scanner's chunk walk yields nothing while the Chunk Reader yields the
well-formed chunk: the two sequences differ. -/
theorem c6_cex :
    scanChunkSeq c6Buf = [] ∧
    _read_chunks c6Buf = [⟨[65, 66, 67, 68], 3, [1, 2, 3, 4]⟩] ∧
    scanChunkSeq c6Buf ≠ _read_chunks c6Buf :=
  ⟨by decide, by decide, by decide⟩

/-- C6 (amended): the scanner's triple sequence is always an initial segment
of the Chunk Reader's — the walks are identical until the first malformed
chunk (declared size < 76), where the scanner stops while the Chunk Reader
skips 76 bytes and continues. -/
theorem c6_scan_prefix (data : List Nat) :
    List.IsPrefix (scanChunkSeq data) (_read_chunks data) :=
  scan_prefix_read data (data.length + 1) 64

/-- C7: when a chunk header declares a total size below 76, the Chunk Reader
skips exactly 76 bytes and continues scanning from there (so following
well-formed chunks are still yielded), and it stops exactly when fewer
than 76 bytes remain. -/
theorem c7_resync (data : List Nat) (fuel pos : Nat) :
    (pos + 76 ≤ data.length → beBytes (slice data (pos + 4) 4) < 76 →
      readChunksLoop data (fuel + 1) pos = readChunksLoop data fuel (pos + 76)) ∧
    (data.length < pos + 76 → readChunksLoop data (fuel + 1) pos = []) := by
  constructor
  · intro h1 h2
    have h0 : pos < data.length := by omega
    simp only [readChunksLoop]
    rw [if_pos h0, if_pos h1, if_pos h2]
  · intro h
    simp only [readChunksLoop]
    by_cases h0 : pos < data.length
    · rw [if_pos h0, if_neg (by omega : ¬ pos + 76 ≤ data.length)]
    · rw [if_neg h0]

/-- C7 (witness): the resynchronization step on `c7Buf` (malformed size-10
chunk at offset 64), the stop condition past the end, and the following
well-formed chunk still being yielded. -/
theorem c7_resync_w :
    readChunksLoop c7Buf 218 64 = readChunksLoop c7Buf 217 140 ∧
    readChunksLoop c7Buf 4 200 = [] ∧
    _read_chunks c7Buf = [⟨[69, 70, 71, 72], 4, [9]⟩] :=
  ⟨(c7_resync c7Buf 217 64).1 (by decide) (by decide),
   (c7_resync c7Buf 3 200).2 (by decide),
   by decide⟩

/-- C8: a character file contributes an entry exactly when a global
identifier and a non-empty name were found in it; the portrait accumulator
never takes part in that condition, and the entry's portrait equals the
(possibly missing) scanned portrait. -/
theorem c8_entry (data : List Nat) :
    ((∃ e, scanCharFile data = some e) ↔
      ((scanCharFileState data).2.1.isSome ∧
        ∃ nm, (scanCharFileState data).1 = some nm ∧ nm ≠ [])) ∧
    (∀ g info, scanCharFile data = some (g, info) →
      info.portrait = (scanCharFileState data).2.2) := by
  rcases hst : scanCharFileState data with ⟨na, gu, po⟩
  simp only [scanCharFile, hst]
  cases na with
  | none => simp
  | some nm =>
    cases gu with
    | none => simp
    | some g =>
      by_cases hnm : nm = []
      · subst hnm
        simp
      · simp only [ne_eq, hnm, not_false_eq_true, if_true]
        refine ⟨⟨fun _ => ⟨rfl, nm, rfl, hnm⟩, fun _ => ⟨(g, ⟨nm, po⟩), rfl⟩⟩, ?_⟩
        intro g2 info h
        injection h with h2
        cases h2
        rfl

/-- C8 (witness): the character file `c8File` (an OBJD chunk with guid 777
and a CTSS chunk naming "Ann", no portrait chunk) yields an entry whose
portrait is the scanned portrait accumulator (none). -/
theorem c8_entry_w :
    scanCharFile c8File = some (777, ⟨[65, 110, 110], none⟩) ∧
    (⟨[65, 110, 110], none⟩ : CharacterInfo).portrait = (scanCharFileState c8File).2.2 :=
  ⟨by decide, (c8_entry c8File).2 777 ⟨[65, 110, 110], none⟩ (by decide)⟩

/-- C9: a roster record slot whose 4-byte presence marker differs from 1
consumes exactly those 4 bytes and scanning continues with the next slot,
still counting the slot against the declared record count. -/
theorem c9_skip (data : List Nat) (n pos : Nat) (sims : List Sim) (v : Int)
    (h1 : readI32 data pos = some v) (h2 : v ≠ 1) :
    nbrsLoop data (n + 1) pos sims = nbrsLoop data n (pos + 4) sims := by
  simp only [nbrsLoop, h1]
  rw [if_pos h2]

/-- C9 (witness): the skip step on a slot whose presence marker is 7. -/
theorem c9_skip_w :
    nbrsLoop [7, 0, 0, 0] 1 0 [] = nbrsLoop [7, 0, 0, 0] 0 4 [] :=
  c9_skip [7, 0, 0, 0] 0 0 [] 7 (by decide) (by decide)

/-- C10: the target id of a relationship sub-record is the int32 read
immediately after the key-count field, regardless of the key count; when
the key count is 0 the sub-record is still parsed and the value count is
read from the same bytes as the target id (so the cursor afterwards is
8 + 4 × target id bytes further); and writing the same target id twice
leaves the later relationship in the mapping. -/
theorem c10_target :
    (∀ (data : List Nat) (pos : Nat) (e : (Int × Relationship) × Nat),
      relSubRecord data pos = some e → readI32 data (pos + 4) = some e.1.1) ∧
    (∀ (data : List Nat) (pos : Nat) (e : (Int × Relationship) × Nat),
      readI32 data pos = some 0 → relSubRecord data pos = some e →
      e.2 = pos + 8 + 4 * e.1.1.toNat) ∧
    (∀ (m : List (Int × Relationship)) (k : Int) (v1 v2 : Relationship),
      dictGet? (dictInsert (dictInsert m k v1) k v2) k = some v2) := by
  refine ⟨?_, ?_, fun m k v1 v2 => dictGet_insert (dictInsert m k v1) k v2⟩
  · intro data pos e he
    unfold relSubRecord at he
    cases h1 : readI32 data pos with
    | none => rw [h1] at he; simp at he
    | some kc =>
      rw [h1] at he; simp only at he
      cases h2 : readI32 data (pos + 4) with
      | none => rw [h2] at he; simp at he
      | some key =>
        rw [h2] at he; simp only at he
        cases h3 : readI32 data (pos + 4 + 4 * kc.toNat) with
        | none => rw [h3] at he; simp at he
        | some vc =>
          rw [h3] at he; simp only at he
          by_cases h4 : vc < 0
          · rw [if_pos h4] at he; simp at he
          · rw [if_neg h4] at he
            cases h5 : readBytes data (pos + 8 + 4 * kc.toNat) (4 * vc.toNat) with
            | none => rw [h5] at he; simp at he
            | some bs =>
              rw [h5] at he
              simp only [Option.some.injEq] at he
              rw [← he]
  · intro data pos e h0 he
    unfold relSubRecord at he
    rw [h0] at he
    simp only [Int.toNat_zero, Nat.mul_zero, Nat.add_zero] at he
    cases h2 : readI32 data (pos + 4) with
    | none => rw [h2] at he; simp at he
    | some key =>
      rw [h2] at he; simp only at he
      by_cases h4 : key < 0
      · rw [if_pos h4] at he; simp at he
      · rw [if_neg h4] at he
        cases h5 : readBytes data (pos + 8) (4 * key.toNat) with
        | none => rw [h5] at he; simp at he
        | some bs =>
          rw [h5] at he
          simp only [Option.some.injEq] at he
          rw [← he]

/-- C10 (witness): on the concrete sub-record bytes with key count 0 the
target id 2 is the int32 right after the key count, the cursor afterwards
is 16 = 0 + 8 + 4 × 2, and a repeated insertion of target id 2 keeps the
later relationship. -/
theorem c10_target_w :
    readI32 c10Bytes 4 = some 2 ∧
    (16 : Nat) = 0 + 8 + 4 * (2 : Int).toNat ∧
    dictGet? (dictInsert (dictInsert ([] : List (Int × Relationship)) 2 ⟨1, false, 1⟩)
      2 ⟨7, true, 0⟩) 2 = some ⟨7, true, 0⟩ :=
  ⟨c10_target.1 c10Bytes 0 ((2, ⟨7, true, 0⟩), 16) (by decide),
   c10_target.2.1 c10Bytes 0 ((2, ⟨7, true, 0⟩), 16) (by decide) (by decide),
   c10_target.2.2 [] 2 ⟨1, false, 1⟩ ⟨7, true, 0⟩⟩

end SimsCompat
